import Mathlib

set_option autoImplicit false

namespace JetKVM

/-!
Shallow embedding of the jetkvm cloud-api signaling core: the device
connection registry (`activeConnections`) and exclusive-session lock
(`inFlight`) shared between `src/webrtc-signaling.ts` and `src/webrtc.ts`,
the device connection manager, the client pairing relay, the HTTP session
bridge (`CreateSession`), and device deletion (`src/devices.ts`).

JS `Map`/`Set` values are modelled as association lists / duplicate-free
lists, socket handles by an abstract identity, and the event-driven code as
explicit state-passing functions: each Lean function covers one synchronous
(suspension-free) segment of the source, so a function application is one
atomic step of the event loop.
-/

deriving instance DecidableEq for Except

/-! ### String helpers: JS `split(",")` and `startsWith("stun:")` -/

/-- Accumulator-based split of a character list at every occurrence of
`sep`, mirroring JS `String.prototype.split` with a one-character
separator. -/
def splitAux (sep : Char) : List Char → List Char → List String
  | [], acc => [String.mk acc.reverse]
  | c :: cs, acc =>
    if c = sep then String.mk acc.reverse :: splitAux sep cs []
    else splitAux sep cs (c :: acc)

/-- JS `str.split(sep)` for a one-character separator string. -/
def splitChar (sep : Char) (s : String) : List String :=
  splitAux sep s.data []

def startsWithAux : List Char → List Char → Bool
  | [], _ => true
  | _ :: _, [] => false
  | c :: cs, d :: ds => c = d && startsWithAux cs ds

/-- JS `s.startsWith(p)`. -/
def strStartsWith (p s : String) : Bool :=
  startsWithAux p.data s.data

/-! ### ICE server configuration (webrtc-signaling.ts, lines 17-24) -/

/-- Source: `function toICEServers(str) \x7b return str.split(",").filter(url
=> url.startsWith("stun:")); \x7d`. -/
def toICEServers (str : String) : List String :=
  (splitChar ',' str).filter (fun url => strStartsWith "stun:" url)

/-- The default value used when the `ICE_SERVERS` environment variable is
unset (webrtc-signaling.ts, line 23). -/
def defaultICEConfig : String :=
  "stun.cloudflare.com:3478,stun:stun.l.google.com:19302,stun:stun1.l.google.com:5349"

/-- Source: `export const iceServers = toICEServers(process.env.ICE_SERVERS
|| "...")`, evaluated with `ICE_SERVERS` unset. -/
def iceServers : List String :=
  toICEServers defaultICEConfig

/-! ### Shared signaling state (webrtc-signaling.ts, lines 13-15) -/

/-- Reference identity of a live `WebSocket` object. -/
abbrev SocketId := Nat

/-- One registry value: the `[deviceWs, ip, version]` tuple stored in
`activeConnections`. `ip` is the address observed on the device's upgrade
request (`REAL_IP_HEADER` or `req.socket.remoteAddress`,
webrtc-signaling.ts lines 137-139). -/
structure DeviceConn where
  sock : SocketId
  ip : String
  version : Option String
deriving DecidableEq

/-- The module-level shared state: `activeConnections : Map<string,
[WebSocket, string, string|null]>` and `inFlight : Set<string>`. -/
structure SigState where
  activeConnections : List (String × DeviceConn)
  inFlight : List String
deriving DecidableEq

/-- JS `Map.get` (returns `undefined`, here `none`, when absent). -/
def mapGet : List (String × DeviceConn) → String → Option DeviceConn
  | [], _ => none
  | (k', v) :: rest, k => if k' = k then some v else mapGet rest k

/-- JS `Map.set` (overwrites the entry of an existing key). -/
def mapSet : List (String × DeviceConn) → String → DeviceConn → List (String × DeviceConn)
  | [], k, v => [(k, v)]
  | (k', v') :: rest, k, v =>
    if k' = k then (k, v) :: rest else (k', v') :: mapSet rest k v

/-- JS `Map.delete`. -/
def mapDelete : List (String × DeviceConn) → String → List (String × DeviceConn)
  | [], _ => []
  | (k', v) :: rest, k =>
    if k' = k then mapDelete rest k else (k', v) :: mapDelete rest k

/-- JS `Set.add` (no effect when the element is already present). -/
def setAdd (s : List String) (k : String) : List String :=
  if k ∈ s then s else s ++ [k]

/-- JS `Set.delete`. -/
def setDelete : List String → String → List String
  | [], _ => []
  | x :: rest, k => if x = k then setDelete rest k else x :: setDelete rest k

/-! ### Device connection manager (webrtc-signaling.ts, lines 63-187) -/

/-- An action performed on a socket handle. -/
inductive SocketAction
  | sendText (msg : String)
  | close
  | terminate
deriving DecidableEq

/-- Source: the `cleanup` closure of `setupDeviceWebSocket`
(webrtc-signaling.ts lines 181-186), installed as the device socket's
error/close handler. It deletes the registry entry for `id` unconditionally:
the closure captures only `id` and the liveness interval, and never compares
the stored connection against the socket whose error/close event triggered
it. (The interval clearing and the `lastSeen` persistence it also performs
live outside this state.) -/
def deviceCleanup (s : SigState) (id : String) : SigState :=
  { s with activeConnections := mapDelete s.activeConnections id }

/-- Source: `handleDeviceSocketRequest` (webrtc-signaling.ts lines 63-102)
after successful authentication, composed with the registration performed by
`setupDeviceWebSocket` (line 144). The upgrade is rejected
(`socket.destroy()`, modelled as `none`) while `id` is in `inFlight`;
otherwise any displaced previous connection is terminated and deleted, and
the new `[ws, ip, version]` tuple is stored. The returned action list holds
what was done to the displaced old socket. -/
def handleDeviceSocketRequest (s : SigState) (id : String) (newConn : DeviceConn) :
    Option (SigState × List SocketAction) :=
  if id ∈ s.inFlight then none
  else
    match mapGet s.activeConnections id with
    | some _ =>
      some ({ s with activeConnections :=
                mapSet (mapDelete s.activeConnections id) id newConn },
            [SocketAction.terminate])
    | none =>
      some ({ s with activeConnections := mapSet s.activeConnections id newConn }, [])

/-! ### Client pairing relay (webrtc-signaling.ts, lines 270-396) -/

/-- Handler slots (`onmessage`/`onerror`/`onclose`) of a `ws` WebSocket
object; `none` is JS `null`. Handler closures are identified by abstract
ids. -/
structure Handlers where
  onmessage : Option Nat
  onerror : Option Nat
  onclose : Option Nat
deriving DecidableEq

/-- The all-`null` handler assignment. -/
def nullHandlers : Handlers := ⟨none, none, none⟩

/-- The values captured by the closures of one relay session in
`setupClientWebSocket`: the device tuple's socket and ip, the caller's
identity token, and the `originalHandlers` snapshot (lines 357-362). -/
structure PairSession where
  deviceSock : SocketId
  deviceIp : String
  token : String
  savedHandlers : Handlers
deriving DecidableEq

/-- A message the relay writes to the client socket. -/
inductive ClientMsg
  | deviceMetadata (deviceVersion : Option String)
  | answer (data : String)
  | newIceCandidate (data : String)
  | pong
deriving DecidableEq

/-- Source: `setupClientWebSocket` (webrtc-signaling.ts lines 270-296): look
the device up in `activeConnections` (close the client socket when absent,
modelled as `none`), reject when `deviceId` is in `inFlight` (close the
client socket), otherwise send `device-metadata` to the client, snapshot the
device socket's current handlers into `originalHandlers` and install the
session's handler closures in all three slots. The source never adds
`deviceId` to `inFlight` on this path, so the returned shared state is the
input state unchanged. `sessionH` identifies the session's handler
closures. -/
def setupClientWebSocket (s : SigState) (devH : Handlers) (deviceId token : String)
    (sessionH : Nat) :
    Option (SigState × Handlers × PairSession × ClientMsg) :=
  match mapGet s.activeConnections deviceId with
  | none => none
  | some conn =>
    if deviceId ∈ s.inFlight then none
    else
      some (s,
            ⟨some sessionH, some sessionH, some sessionH⟩,
            ⟨conn.sock, conn.ip, token, devH⟩,
            ClientMsg.deviceMetadata conn.version)

/-- A parsed frame arriving on the client socket: the literal `"ping"` text,
a JSON message of a recognized `type`, a JSON message of any other `type`,
or a frame on which `JSON.parse` throws. -/
inductive ClientFrame
  | ping
  | offer (sd : String)
  | newIceCandidate (data : String)
  | otherType (raw : String)
  | malformed (raw : String)
deriving DecidableEq

/-- A message the relay writes to the device socket: the forwarded offer
`\x7b type: "offer", data: \x7b sd, ip, iceServers, OidcGoogle \x7d \x7d` or a
forwarded ICE candidate. -/
inductive DeviceMsg
  | offer (sd : String) (ip : String) (iceServers : List String) (oidcGoogle : String)
  | newIceCandidate (data : String)
deriving DecidableEq

/-- Effect of one client frame. -/
inductive RelayEffect
  | toClient (m : ClientMsg)
  | toDevice (m : DeviceMsg)
  | drop
deriving DecidableEq

/-- Source: the `clientWs.on("message")` handler (webrtc-signaling.ts lines
298-334): a literal `"ping"` is answered locally with `"pong"` and not
forwarded; an `offer` is forwarded to the device as `\x7b sd: msg.data.sd, ip,
iceServers, OidcGoogle: token \x7d` where `ip` is the second component of the
device's `activeConnections` tuple captured at pairing time;
`new-ice-candidate` is forwarded verbatim; messages of other types and
unparsable frames are logged and dropped. -/
def relayClientFrame (sess : PairSession) : ClientFrame → RelayEffect
  | ClientFrame.ping => RelayEffect.toClient ClientMsg.pong
  | ClientFrame.offer sd =>
      RelayEffect.toDevice (DeviceMsg.offer sd sess.deviceIp iceServers sess.token)
  | ClientFrame.newIceCandidate d =>
      RelayEffect.toDevice (DeviceMsg.newIceCandidate d)
  | ClientFrame.otherType _ => RelayEffect.drop
  | ClientFrame.malformed _ => RelayEffect.drop

/-- Source: the `cleanup` closure of `setupClientWebSocket`
(webrtc-signaling.ts lines 387-395): restore the `originalHandlers` snapshot
onto the device socket and delete `deviceId` from `inFlight`. Returns the
new shared state and the device socket's restored handler slots. -/
def pairCleanup (s : SigState) (sess : PairSession) (deviceId : String) :
    SigState × Handlers :=
  ({ s with inFlight := setDelete s.inFlight deviceId }, sess.savedHandlers)

/-! ### Session bridge (webrtc.ts, `CreateSession`, lines 7-98) -/

/-- An HTTP response as seen by the bridge caller: `ok` is
`res.json(JSON.parse(resp.data))`; `errorPayload` is a thrown `HttpError`
rendered by the error middleware of index.ts as `\x7b name, message \x7d` with
the error's status (404 for `NotFoundError`, 422 for
`UnprocessableEntityError`, per the errors test suite); `failure` is the
bridge's own `res.status(500).json(\x7b error: ... \x7d)` catch branch;
`noContent` is `res.status(204).send()`. -/
inductive Response
  | ok (body : String)
  | errorPayload (status : Nat) (name : String) (message : String)
  | failure (status : Nat) (error : String)
  | noContent
deriving DecidableEq

/-- How the awaited promise in `CreateSession` settles: the device socket's
next message event, the 15000 ms timer firing, an error or close event on
the device socket, or the HTTP caller's socket closing first. -/
inductive Outcome
  | reply (data : String)
  | timeout
  | wsError
  | wsClose
  | httpAbort
deriving DecidableEq

/-- Every settlement except a device reply rejects the promise. -/
def Outcome.isFailure : Outcome → Bool
  | Outcome.reply _ => false
  | _ => true

/-- An action `CreateSession` performs on the device socket. -/
inductive BridgeSocketAction
  | send (sd : String) (ip : String) (iceServers : List String) (oidcGoogle : String)
  | close
  | terminate
deriving DecidableEq

/-- The state one `CreateSession` call reads and writes: the shared
signaling state, the device socket's handler slots, the pending `setTimeout`
(its duration; `none` once cleared), whether the `httpClose` listener is
attached to `req.socket`, and the actions performed on the device socket. -/
structure BridgeState where
  sig : SigState
  devHandlers : Handlers
  timer : Option Nat
  httpListener : Bool
  deviceActions : List BridgeSocketAction
deriving DecidableEq

/-- The in-flight rejection thrown at webrtc.ts line 27. -/
def inFlightResponse (id : String) : Response :=
  Response.errorPayload 422 "UnprocessableEntityError"
    ("Websocket for " ++ id ++ " in-flight with another client")

/-- The missing-socket rejection thrown at webrtc.ts line 35. -/
def noSocketResponse : Response :=
  Response.errorPayload 404 "NotFoundError" "No socket for id found"

/-- Source: `CreateSession` (webrtc.ts lines 25-70), the synchronous segment
from the `inFlight.has(id)` guard to `ws.send(...)`: reject with 422 while
`id` is in `inFlight`, reject with 404 when `activeConnections` has no tuple
for `id`, otherwise add `id` to `inFlight`, start the 15000 ms timer,
install the promise's handlers on the device socket's three slots, attach
the `httpClose` listener, and send `\x7b sd, ip, iceServers, OidcGoogle \x7d`.
No `await` separates the `has` check (line 25) from `inFlight.add(id)` (line
46), so this whole segment is a single atomic step of the event loop.
`bridgeH` identifies the promise's handler closures. -/
def bridgeEnter (st : BridgeState) (id sd idToken : String) (bridgeH : Nat) :
    Except Response BridgeState :=
  if id ∈ st.sig.inFlight then Except.error (inFlightResponse id)
  else
    match mapGet st.sig.activeConnections id with
    | none => Except.error noSocketResponse
    | some conn =>
      Except.ok
        { sig := { st.sig with inFlight := setAdd st.sig.inFlight id },
          devHandlers := ⟨some bridgeH, some bridgeH, some bridgeH⟩,
          timer := some 15000,
          httpListener := true,
          deviceActions := st.deviceActions
            ++ [BridgeSocketAction.send sd conn.ip iceServers idToken] }

/-- The body of the bridge's catch response (webrtc.ts line 80). -/
def bridgeErrorBody : String :=
  "There was an error sending and receiving data to the KVM"

/-- Source: `CreateSession` (webrtc.ts lines 71-97) after the entering
segment: the promise settles with `outcome`; the `catch` maps every
rejection — timer, socket error, socket close, HTTP abort — to the same
`res.status(500).json(\x7b error: ... \x7d)`; the `finally` clears the timer,
deletes `id` from `inFlight`, detaches the `httpClose` listener from
`req.socket`, and sets the device socket's `onerror`/`onclose`/`onmessage`
slots to `null`. -/
def bridgeSettle (st : BridgeState) (id : String) (outcome : Outcome) :
    Response × BridgeState :=
  (match outcome with
   | Outcome.reply data => Response.ok data
   | _ => Response.failure 500 bridgeErrorBody,
   { st with
       sig := { st.sig with inFlight := setDelete st.sig.inFlight id },
       devHandlers := nullHandlers,
       timer := none,
       httpListener := false })

/-- Source: `CreateSession` after the device-ownership lookup: a guard
rejection throws before the `try`, leaving all state untouched; otherwise
the entering segment runs, the promise settles with `outcome`, and the
`catch`/`finally` produce the response and the final state. -/
def CreateSession (st : BridgeState) (id sd idToken : String) (bridgeH : Nat)
    (outcome : Outcome) : Response × BridgeState :=
  match bridgeEnter st id sd idToken bridgeH with
  | Except.error r => (r, st)
  | Except.ok st' => bridgeSettle st' id outcome

/-! ### Device deletion (devices.ts, `Delete`, lines 90-130) -/

/-- A row of the `Device` table as used by `Delete`. -/
structure DbDevice where
  id : String
  secretToken : String
  ownerSub : String
deriving DecidableEq

/-- How a Delete request is authorized: an `Authorization: Bearer
<secretToken>` header (devices.ts line 91), or the session cookie's OIDC
subject together with the `:id` route parameter (lines 101-117). -/
inductive DeleteAuth
  | bearer (secretToken : String)
  | session (sub : String) (id : String)
deriving DecidableEq

/-- Prisma `device.findUnique(\x7b where: \x7b secretToken \x7d \x7d)`. -/
def dbFindBySecret : List DbDevice → String → Option DbDevice
  | [], _ => none
  | d :: rest, tok =>
    if d.secretToken = tok then some d else dbFindBySecret rest tok

/-- Prisma lookup of the row with this `id` owned by this subject. -/
def dbFindOwned : List DbDevice → String → String → Option DbDevice
  | [], _, _ => none
  | d :: rest, id, sub =>
    if d.id = id ∧ d.ownerSub = sub then some d else dbFindOwned rest id sub

/-- Prisma `device.delete` of the row with this `id`. -/
def dbRemove : List DbDevice → String → List DbDevice
  | [], _ => []
  | d :: rest, id => if d.id = id then dbRemove rest id else d :: dbRemove rest id

namespace Devices

/-- Source: `Delete` (devices.ts lines 90-130). Bearer path: look the device
up by `secretToken` (404 `NotFoundError` when absent), delete the row,
return 204 — this path returns before the connection-closing code and
performs no socket action. Session path: delete the row with the `:id`
parameter owned by the session's subject (prisma's rejection on a missing
row surfaces as a 500 through the middleware), then, when
`activeConnections` holds a tuple for `id`, send `"Deregistered from
server"` followed by `close()` on that socket. Neither path modifies
`activeConnections` or `inFlight` (the entry is removed later by the device
socket's own close handler), so the shared state is not among the outputs.
Returns the response, the device table after the call, and the actions
performed on device sockets. -/
def Delete (db : List DbDevice) (s : SigState) :
    DeleteAuth → Response × List DbDevice × List (SocketId × SocketAction)
  | DeleteAuth.bearer tok =>
    match dbFindBySecret db tok with
    | none => (Response.errorPayload 404 "NotFoundError" "Device not found", db, [])
    | some d => (Response.noContent, dbRemove db d.id, [])
  | DeleteAuth.session sub id =>
    match dbFindOwned db id sub with
    | none =>
      (Response.errorPayload 500 "Error" "Record to delete does not exist", db, [])
    | some _ =>
      (Response.noContent, dbRemove db id,
       match mapGet s.activeConnections id with
       | some conn =>
         [(conn.sock, SocketAction.sendText "Deregistered from server"),
          (conn.sock, SocketAction.close)]
       | none => [])

end Devices

/-! ### Sample values used by concrete witnesses and counterexamples -/

/-- A registered device connection: socket handle 1, observed address
203.0.113.7, reported version 0.4.0. -/
def sampleConn : DeviceConn := ⟨1, "203.0.113.7", some "0.4.0"⟩

/-- A second, newer connection for the same device: socket handle 2. -/
def newerConn : DeviceConn := ⟨2, "203.0.113.8", some "0.4.1"⟩

/-- Shared state with device `"dev1"` registered and the lock empty. -/
def sampleSig : SigState := ⟨[("dev1", sampleConn)], []⟩

/-- A bridge-call state over `sampleSig` with idle bridge-local state. -/
def sampleBridgeState : BridgeState := ⟨sampleSig, nullHandlers, none, false, []⟩

/-- The bridge state `bridgeEnter sampleBridgeState "dev1" "sdpC" "tokC" 7`
produces: "dev1" locked, the promise handlers installed in all three slots,
the 15000 ms timer pending, the HTTP-abort listener attached, and the offer
sent to the device socket. -/
def enteredSample : BridgeState :=
  ⟨⟨[("dev1", sampleConn)], ["dev1"]⟩, ⟨some 7, some 7, some 7⟩, some 15000, true,
   [BridgeSocketAction.send "sdpC" "203.0.113.7" iceServers "tokC"]⟩

/-! ### Helper lemmas -/

theorem mem_setAdd_self (l : List String) (k : String) : k ∈ setAdd l k := by
  unfold setAdd
  split
  · assumption
  · simp

theorem not_mem_setDelete (l : List String) (k : String) : k ∉ setDelete l k := by
  induction l with
  | nil => simp [setDelete]
  | cons x rest ih =>
    by_cases hx : x = k
    · simpa [setDelete, hx] using ih
    · simp only [setDelete, if_neg hx, List.mem_cons]
      rintro (h | h)
      · exact hx h.symm
      · exact ih h

theorem mapGet_mapDelete_self (m : List (String × DeviceConn)) (k : String) :
    mapGet (mapDelete m k) k = none := by
  induction m with
  | nil => rfl
  | cons p rest ih =>
    obtain ⟨k', v⟩ := p
    by_cases h : k' = k
    · simpa [mapDelete, h] using ih
    · simp [mapDelete, mapGet, h, ih]

/-! ### Claim theorems -/

/-- C10: the process-wide ICE server list is computed by splitting the
configured string on commas and keeping exactly the entries that start with
"stun:"; under the default configuration the list equals
["stun:stun.l.google.com:19302", "stun:stun1.l.google.com:5349"], the
scheme-less first default entry "stun.cloudflare.com:3478" being silently
dropped. -/
theorem C10_iceServers_default :
    iceServers = ["stun:stun.l.google.com:19302", "stun:stun1.l.google.com:5349"] ∧
    "stun.cloudflare.com:3478" ∉ iceServers := by
  constructor
  · decide
  · decide

/-- C3: whenever a session-bridge call enters its exchange phase (the lock
guard passes and a registry tuple exists for `id`), on every outcome —
device reply, timeout, device-socket error or close, HTTP caller abort — the
`finally` teardown runs before the call returns: the timeout timer is
cleared, `id` is released from the session lock, the temporary listeners on
the device socket are detached, and the HTTP-abort listener is detached. -/
theorem C3_bridge_teardown (st : BridgeState) (id sd idToken : String)
    (bridgeH : Nat) (outcome : Outcome) (conn : DeviceConn)
    (hFree : id ∉ st.sig.inFlight)
    (hConn : mapGet st.sig.activeConnections id = some conn) :
    ((CreateSession st id sd idToken bridgeH outcome).2).timer = none ∧
    id ∉ ((CreateSession st id sd idToken bridgeH outcome).2).sig.inFlight ∧
    ((CreateSession st id sd idToken bridgeH outcome).2).devHandlers = nullHandlers ∧
    ((CreateSession st id sd idToken bridgeH outcome).2).httpListener = false := by
  simp only [CreateSession, bridgeEnter, if_neg hFree, hConn, bridgeSettle]
  simp [not_mem_setDelete]

/-- Witness for C3: a concrete bridge call against the sample state that
settles by timeout. -/
theorem C3_bridge_teardown_witness :
    ((CreateSession sampleBridgeState "dev1" "sdpX" "tokX" 7 Outcome.timeout).2).timer
      = none ∧
    "dev1" ∉
      ((CreateSession sampleBridgeState "dev1" "sdpX" "tokX" 7
        Outcome.timeout).2).sig.inFlight ∧
    ((CreateSession sampleBridgeState "dev1" "sdpX" "tokX" 7
        Outcome.timeout).2).devHandlers = nullHandlers ∧
    ((CreateSession sampleBridgeState "dev1" "sdpX" "tokX" 7
        Outcome.timeout).2).httpListener = false :=
  C3_bridge_teardown sampleBridgeState "dev1" "sdpX" "tokX" 7 Outcome.timeout
    sampleConn (by decide) (by decide)

/-- C9: after a bridge call that reaches its exchange phase completes, on
any outcome, the device socket's `onmessage`/`onerror`/`onclose` slots are
set to `null`; the handlers occupying the slots before the call (the
arbitrary `st.devHandlers`) are discarded, never saved and restored, so a
consumer with handlers installed on that socket loses them. -/
theorem C9_bridge_handlers_discarded (st : BridgeState) (id sd idToken : String)
    (bridgeH : Nat) (outcome : Outcome) (conn : DeviceConn)
    (hFree : id ∉ st.sig.inFlight)
    (hConn : mapGet st.sig.activeConnections id = some conn) :
    ((CreateSession st id sd idToken bridgeH outcome).2).devHandlers = nullHandlers := by
  simp only [CreateSession, bridgeEnter, if_neg hFree, hConn, bridgeSettle]

/-- Witness for C9: a bridge call over a socket whose slots held handlers 3,
4 and 5 before the call leaves all three slots `null`. -/
theorem C9_bridge_handlers_discarded_witness :
    ((CreateSession ⟨sampleSig, ⟨some 3, some 4, some 5⟩, none, false, []⟩
        "dev1" "sdpY" "tokY" 9 Outcome.wsClose).2).devHandlers = nullHandlers :=
  C9_bridge_handlers_discarded ⟨sampleSig, ⟨some 3, some 4, some 5⟩, none, false, []⟩
    "dev1" "sdpY" "tokY" 9 Outcome.wsClose sampleConn (by decide) (by decide)

/-- C6: a failure outcome of the session bridge (timeout, device-socket
error or close, or caller abort) returns the generic 500 failure to the
caller but leaves the device connection untouched: the registry entries are
unchanged, and the only action ever performed on the device socket is the
single offer send — never a close or terminate. -/
theorem C6_failure_leaves_device (st : BridgeState) (id sd idToken : String)
    (bridgeH : Nat) (outcome : Outcome) (conn : DeviceConn)
    (hFree : id ∉ st.sig.inFlight)
    (hConn : mapGet st.sig.activeConnections id = some conn)
    (hFail : outcome.isFailure = true) :
    (CreateSession st id sd idToken bridgeH outcome).1
      = Response.failure 500 bridgeErrorBody ∧
    ((CreateSession st id sd idToken bridgeH outcome).2).sig.activeConnections
      = st.sig.activeConnections ∧
    ((CreateSession st id sd idToken bridgeH outcome).2).deviceActions
      = st.deviceActions ++ [BridgeSocketAction.send sd conn.ip iceServers idToken] := by
  cases outcome with
  | reply d => simp [Outcome.isFailure] at hFail
  | timeout => simp [CreateSession, bridgeEnter, if_neg hFree, hConn, bridgeSettle]
  | wsError => simp [CreateSession, bridgeEnter, if_neg hFree, hConn, bridgeSettle]
  | wsClose => simp [CreateSession, bridgeEnter, if_neg hFree, hConn, bridgeSettle]
  | httpAbort => simp [CreateSession, bridgeEnter, if_neg hFree, hConn, bridgeSettle]

/-- C7 counterexample: at the sample state the response the caller receives
for a timeout equals, field for field, the response for a device-socket
error and the response for a device-socket close: the bridge reports a
timeout and a transport error identically, refuting the claimed
distinguishability. -/
theorem C7_counterexample :
    (CreateSession sampleBridgeState "dev1" "sdpA" "tokA" 7 Outcome.timeout).1
      = (CreateSession sampleBridgeState "dev1" "sdpA" "tokA" 7 Outcome.wsError).1 ∧
    (CreateSession sampleBridgeState "dev1" "sdpA" "tokA" 7 Outcome.timeout).1
      = (CreateSession sampleBridgeState "dev1" "sdpA" "tokA" 7 Outcome.wsClose).1 := by
  decide

/-- C7 amended: a bridge timeout is reported to the caller identically to a
device-socket error or close — the same 500 response with the same body —
while both remain distinguishable from the 404 device-not-found and the 422
already-in-an-exchange rejections. -/
theorem C7_failure_responses (st : BridgeState) (id sd idToken : String)
    (bridgeH : Nat) (conn : DeviceConn)
    (hFree : id ∉ st.sig.inFlight)
    (hConn : mapGet st.sig.activeConnections id = some conn) :
    (CreateSession st id sd idToken bridgeH Outcome.timeout).1
      = (CreateSession st id sd idToken bridgeH Outcome.wsError).1 ∧
    (CreateSession st id sd idToken bridgeH Outcome.timeout).1
      = (CreateSession st id sd idToken bridgeH Outcome.wsClose).1 ∧
    (CreateSession st id sd idToken bridgeH Outcome.timeout).1
      = Response.failure 500 bridgeErrorBody ∧
    (CreateSession
        { st with sig := { st.sig with inFlight := setAdd st.sig.inFlight id } }
        id sd idToken bridgeH Outcome.timeout).1 = inFlightResponse id ∧
    (CreateSession
        { st with sig :=
            { st.sig with
                activeConnections := mapDelete st.sig.activeConnections id } }
        id sd idToken bridgeH Outcome.timeout).1 = noSocketResponse ∧
    inFlightResponse id ≠ Response.failure 500 bridgeErrorBody ∧
    noSocketResponse ≠ Response.failure 500 bridgeErrorBody := by
  refine ⟨?_, ?_, ?_, ?_, ?_, ?_, ?_⟩
  · simp [CreateSession, bridgeEnter, if_neg hFree, hConn, bridgeSettle]
  · simp [CreateSession, bridgeEnter, if_neg hFree, hConn, bridgeSettle]
  · simp [CreateSession, bridgeEnter, if_neg hFree, hConn, bridgeSettle]
  · simp [CreateSession, bridgeEnter, mem_setAdd_self]
  · simp [CreateSession, bridgeEnter, if_neg hFree, mapGet_mapDelete_self]
  · exact fun h => Response.noConfusion h
  · exact fun h => Response.noConfusion h

/-- Witness for the amended C7 at the sample state. -/
theorem C7_failure_responses_witness :
    (CreateSession sampleBridgeState "dev1" "sdpK" "tokK" 2 Outcome.timeout).1
      = (CreateSession sampleBridgeState "dev1" "sdpK" "tokK" 2 Outcome.wsError).1 ∧
    (CreateSession sampleBridgeState "dev1" "sdpK" "tokK" 2 Outcome.timeout).1
      = (CreateSession sampleBridgeState "dev1" "sdpK" "tokK" 2 Outcome.wsClose).1 ∧
    (CreateSession sampleBridgeState "dev1" "sdpK" "tokK" 2 Outcome.timeout).1
      = Response.failure 500 bridgeErrorBody ∧
    (CreateSession
        { sampleBridgeState with sig :=
            { sampleBridgeState.sig with
                inFlight := setAdd sampleBridgeState.sig.inFlight "dev1" } }
        "dev1" "sdpK" "tokK" 2 Outcome.timeout).1 = inFlightResponse "dev1" ∧
    (CreateSession
        { sampleBridgeState with sig :=
            { sampleBridgeState.sig with
                activeConnections :=
                  mapDelete sampleBridgeState.sig.activeConnections "dev1" } }
        "dev1" "sdpK" "tokK" 2 Outcome.timeout).1 = noSocketResponse ∧
    inFlightResponse "dev1" ≠ Response.failure 500 bridgeErrorBody ∧
    noSocketResponse ≠ Response.failure 500 bridgeErrorBody :=
  C7_failure_responses sampleBridgeState "dev1" "sdpK" "tokK" 2 sampleConn
    (by decide) (by decide)

/-- C1 counterexample: with device "dev1" registered and the lock empty, a
client pairing call observes "dev1" absent from the lock and proceeds while
inserting nothing, after which a session-bridge entering segment for "dev1"
also observes it absent and proceeds: two concurrent exchanges for the same
device both pass the lock check and both run, refuting the claim for a
bridge call racing a client pairing. -/
theorem C1_counterexample :
    "dev1" ∉ sampleSig.inFlight ∧
    setupClientWebSocket sampleSig nullHandlers "dev1" "tokP" 5
      = some (sampleSig, ⟨some 5, some 5, some 5⟩,
              ⟨1, "203.0.113.7", "tokP", nullHandlers⟩,
              ClientMsg.deviceMetadata (some "0.4.0")) ∧
    bridgeEnter ⟨sampleSig, ⟨some 5, some 5, some 5⟩, none, false, []⟩
        "dev1" "sdpE" "tokE" 7
      = Except.ok ⟨⟨[("dev1", sampleConn)], ["dev1"]⟩, ⟨some 7, some 7, some 7⟩,
          some 15000, true,
          [BridgeSocketAction.send "sdpE" "203.0.113.7" iceServers "tokE"]⟩ := by
  decide

/-- C1 amended: for the session bridge itself the lock check and insertion
form one atomic, suspension-free segment: once one bridge call's entering
segment has succeeded for `id`, any second bridge entering segment for `id`
— whatever its payload, token or handler — fails immediately with the 422
in-flight rejection, so two bridge calls can never both observe `id` absent
and both proceed. (A client pairing, by contrast, never inserts into the
lock; see the counterexample.) -/
theorem C1_bridge_acquire_atomic (st st' : BridgeState) (id sd idToken : String)
    (bridgeH : Nat) (sd₂ idToken₂ : String) (bridgeH₂ : Nat)
    (h : bridgeEnter st id sd idToken bridgeH = Except.ok st') :
    bridgeEnter st' id sd₂ idToken₂ bridgeH₂ = Except.error (inFlightResponse id) := by
  by_cases hmem : id ∈ st.sig.inFlight
  · simp [bridgeEnter, if_pos hmem] at h
  · simp only [bridgeEnter, if_neg hmem] at h
    cases hconn : mapGet st.sig.activeConnections id with
    | none =>
      rw [hconn] at h
      simp at h
    | some conn =>
      rw [hconn] at h
      simp only [Except.ok.injEq] at h
      subst h
      simp [bridgeEnter, mem_setAdd_self]

/-- Witness for the amended C1: after the entering segment that produced
`enteredSample`, a second bridge entering segment for "dev1" is rejected. -/
theorem C1_bridge_acquire_atomic_witness :
    bridgeEnter enteredSample "dev1" "sdpD" "tokD" 8
      = Except.error (inFlightResponse "dev1") :=
  C1_bridge_acquire_atomic sampleBridgeState enteredSample "dev1" "sdpC" "tokC" 7
    "sdpD" "tokD" 8 (by decide)

/-- C2: the code evaluated at the failing input. Pairing a client with
device "dev1" succeeds, yet the shared state it returns still has an empty
lock — the relay never inserts "dev1" — so while the relay session is active
a second pairing attempt for "dev1" also succeeds (saving the first
session's handlers as its `originalHandlers`) instead of being rejected; the
relay's cleanup nevertheless deletes "dev1" from the lock it never added
to. -/
theorem C2_session_lock_never_held :
    setupClientWebSocket sampleSig nullHandlers "dev1" "tokF" 6
      = some (sampleSig, ⟨some 6, some 6, some 6⟩,
              ⟨1, "203.0.113.7", "tokF", nullHandlers⟩,
              ClientMsg.deviceMetadata (some "0.4.0")) ∧
    "dev1" ∉ sampleSig.inFlight ∧
    setupClientWebSocket sampleSig ⟨some 6, some 6, some 6⟩ "dev1" "tokG" 8
      = some (sampleSig, ⟨some 8, some 8, some 8⟩,
              ⟨1, "203.0.113.7", "tokG", ⟨some 6, some 6, some 6⟩⟩,
              ClientMsg.deviceMetadata (some "0.4.0")) ∧
    (pairCleanup sampleSig ⟨1, "203.0.113.7", "tokF", nullHandlers⟩ "dev1").1.inFlight
      = [] := by
  decide

/-- C4 counterexample: device "dev1" is registered with `sampleConn` (socket
1); a reconnect displaces it — the old socket is terminated and the registry
then stores `newerConn` (socket 2). When the old socket's deferred close
event runs the device `cleanup`, the entry is removed even though the stored
connection (socket 2) is not the connection being torn down (socket 1):
removal is not identity-guarded, and the newer connection's registry entry
is deleted. -/
theorem C4_counterexample :
    handleDeviceSocketRequest sampleSig "dev1" newerConn
      = some (⟨[("dev1", newerConn)], []⟩, [SocketAction.terminate]) ∧
    newerConn.sock ≠ sampleConn.sock ∧
    mapGet (deviceCleanup ⟨[("dev1", newerConn)], []⟩ "dev1").activeConnections "dev1"
      = none := by
  decide

/-- C4 amended: the teardown triggered by a device socket's error or close
removes the registry entry for its deviceId unconditionally, regardless of
whether the stored connection is the one being torn down; consequently, when
a new connection for deviceId displaces an old one, the old socket's
deferred cleanup does delete the newer connection's registry entry. -/
theorem C4_cleanup_unconditional (s : SigState) (id : String) :
    mapGet (deviceCleanup s id).activeConnections id = none :=
  mapGet_mapDelete_self s.activeConnections id

/-- C5 counterexample: device "dev1" is registered with observed address
203.0.113.7; a client whose own source address is 198.51.100.9 pairs with it
(the pairing captures the device tuple's address; the code never reads the
client's address at all). The client's offer reaches the device augmented
with 203.0.113.7, which differs from the message the claim requires, namely
one carrying the client's source address 198.51.100.9. -/
theorem C5_counterexample :
    setupClientWebSocket sampleSig nullHandlers "dev1" "tokH" 4
      = some (sampleSig, ⟨some 4, some 4, some 4⟩,
              ⟨1, "203.0.113.7", "tokH", nullHandlers⟩,
              ClientMsg.deviceMetadata (some "0.4.0")) ∧
    relayClientFrame ⟨1, "203.0.113.7", "tokH", nullHandlers⟩ (ClientFrame.offer "v=0")
      = RelayEffect.toDevice (DeviceMsg.offer "v=0" "203.0.113.7" iceServers "tokH") ∧
    RelayEffect.toDevice (DeviceMsg.offer "v=0" "203.0.113.7" iceServers "tokH")
      ≠ RelayEffect.toDevice (DeviceMsg.offer "v=0" "198.51.100.9" iceServers "tokH") := by
  decide

/-- C5 amended: for every offer frame sent during an active pairing session,
the message delivered to the device socket is the offer augmented with the
device's registry-stored source address (not the client's), the configured
ICE server list, and the caller's identity token, with the `sd` field
identical to the client's input. -/
theorem C5_offer_forwarding (s : SigState) (devH : Handlers)
    (deviceId token : String) (sessionH : Nat) (conn : DeviceConn) (sd : String)
    (hConn : mapGet s.activeConnections deviceId = some conn)
    (hFree : deviceId ∉ s.inFlight) :
    setupClientWebSocket s devH deviceId token sessionH
      = some (s, ⟨some sessionH, some sessionH, some sessionH⟩,
              ⟨conn.sock, conn.ip, token, devH⟩,
              ClientMsg.deviceMetadata conn.version) ∧
    relayClientFrame ⟨conn.sock, conn.ip, token, devH⟩ (ClientFrame.offer sd)
      = RelayEffect.toDevice (DeviceMsg.offer sd conn.ip iceServers token) := by
  constructor
  · simp [setupClientWebSocket, hConn, if_neg hFree]
  · rfl

/-- Witness for the amended C5 at the sample state. -/
theorem C5_offer_forwarding_witness :
    setupClientWebSocket sampleSig nullHandlers "dev1" "tokJ" 12
      = some (sampleSig, ⟨some 12, some 12, some 12⟩,
              ⟨sampleConn.sock, sampleConn.ip, "tokJ", nullHandlers⟩,
              ClientMsg.deviceMetadata sampleConn.version) ∧
    relayClientFrame ⟨sampleConn.sock, sampleConn.ip, "tokJ", nullHandlers⟩
        (ClientFrame.offer "v=1")
      = RelayEffect.toDevice
          (DeviceMsg.offer "v=1" sampleConn.ip iceServers "tokJ") :=
  C5_offer_forwarding sampleSig nullHandlers "dev1" "tokJ" 12 sampleConn "v=1"
    (by decide) (by decide)

/-- C8 counterexample: device "dev1" (secret token "sekret1", owner "user1")
has a live registry connection. Deleting it with the device's bearer secret
token is accepted — 204, row removed — yet performs no action on any socket:
the live connection is neither closed nor deregistered, refuting the claim
for bearer-authorized deletions. -/
theorem C8_counterexample :
    Devices.Delete [⟨"dev1", "sekret1", "user1"⟩] sampleSig
        (DeleteAuth.bearer "sekret1")
      = (Response.noContent, [], []) ∧
    mapGet sampleSig.activeConnections "dev1" = some sampleConn := by
  decide

/-- C8 amended: only a deletion authorized by the owner's session closes a
live connection — it sends "Deregistered from server" followed by `close()`
on the stored socket (deregistration then follows from that socket's own
close handler); a deletion authorized by the device's bearer secret token
deletes the row and returns 204 without any socket action. -/
theorem C8_delete_connection_close (db : List DbDevice) (s : SigState)
    (sub id tok : String) (d dTok : DbDevice) (conn : DeviceConn)
    (hOwned : dbFindOwned db id sub = some d)
    (hConn : mapGet s.activeConnections id = some conn)
    (hTok : dbFindBySecret db tok = some dTok) :
    Devices.Delete db s (DeleteAuth.session sub id)
      = (Response.noContent, dbRemove db id,
         [(conn.sock, SocketAction.sendText "Deregistered from server"),
          (conn.sock, SocketAction.close)]) ∧
    Devices.Delete db s (DeleteAuth.bearer tok)
      = (Response.noContent, dbRemove db dTok.id, []) := by
  constructor
  · simp [Devices.Delete, hOwned, hConn]
  · simp [Devices.Delete, hTok]

/-- Witness for the amended C8 on a one-row table with a live connection. -/
theorem C8_delete_connection_close_witness :
    Devices.Delete [⟨"dev1", "sekret1", "user1"⟩] sampleSig
        (DeleteAuth.session "user1" "dev1")
      = (Response.noContent, dbRemove [⟨"dev1", "sekret1", "user1"⟩] "dev1",
         [(sampleConn.sock, SocketAction.sendText "Deregistered from server"),
          (sampleConn.sock, SocketAction.close)]) ∧
    Devices.Delete [⟨"dev1", "sekret1", "user1"⟩] sampleSig
        (DeleteAuth.bearer "sekret1")
      = (Response.noContent,
         dbRemove [⟨"dev1", "sekret1", "user1"⟩]
           (DbDevice.mk "dev1" "sekret1" "user1").id, []) :=
  C8_delete_connection_close [⟨"dev1", "sekret1", "user1"⟩] sampleSig
    "user1" "dev1" "sekret1" ⟨"dev1", "sekret1", "user1"⟩
    ⟨"dev1", "sekret1", "user1"⟩ sampleConn (by decide) (by decide) (by decide)

/-- Witness for C6: a concrete bridge call aborted by the HTTP caller. -/
theorem C6_failure_leaves_device_witness :
    (CreateSession sampleBridgeState "dev1" "sdpZ" "tokZ" 3 Outcome.httpAbort).1
      = Response.failure 500 bridgeErrorBody ∧
    ((CreateSession sampleBridgeState "dev1" "sdpZ" "tokZ" 3
        Outcome.httpAbort).2).sig.activeConnections
      = sampleBridgeState.sig.activeConnections ∧
    ((CreateSession sampleBridgeState "dev1" "sdpZ" "tokZ" 3
        Outcome.httpAbort).2).deviceActions
      = sampleBridgeState.deviceActions
        ++ [BridgeSocketAction.send "sdpZ" sampleConn.ip iceServers "tokZ"] :=
  C6_failure_leaves_device sampleBridgeState "dev1" "sdpZ" "tokZ" 3 Outcome.httpAbort
    sampleConn (by decide) (by decide) (by decide)

end JetKVM
